import Mathlib

/-!
# Verification of the s-cog-compute tile pipeline (`src/main.py`)

Shallow embedding of the on-demand tile computation pipeline:
catalog lookup → band tile fetch → band-algebra evaluation (`eval(formula)`)
→ normalization/colorization (`apply_colormap`) → TTL-cached PNG bytes
(`cached_generate_tile`, `get_tile`), plus the `/search` endpoint
(`search_images`) and the websocket progress broadcast (`notify_progress`).

Modelling conventions:
* A pixel value is `Option ℚ`: `some q` is a finite float, `none` stands for
  NaN or Inf (an invalid value), exactly the set of values that
  `np.ma.masked_invalid` masks.  Arithmetic is none-absorbing and division by
  zero produces `none`, matching numpy's elementwise float semantics followed
  by masking (the claims under study never recover a finite value from an
  infinity, so identifying NaN and Inf with the mask is exact on them).
* Rasters are functions on a fixed finite pixel grid (2×2 here; the source's
  256×256 grid — every claimed property is pointwise or grid-uniform, so the
  grid size is irrelevant and a small decidable grid is used).
* PNG encoding is deterministic and injective in the source (a pure function
  of the pixel data), so bytes are modelled by the image value itself.
* Real-time values (`X-Computation-Time`, `datetime.now()` date defaulting)
  are outside the model; dates enter as opaque strings.
-/

namespace SCog

/-- Pixel index of the fixed raster grid. -/
abbrev Ix := Fin 2 × Fin 2

/-- A single-channel raster grid of values of type `α`. -/
abbrev Grid (α : Type) := Ix → α

/-- A Python float as seen through `np.ma.masked_invalid`: `some q` is a
finite value, `none` is NaN/Inf (invalid, masked). -/
abbrev PyFloat := Option ℚ

/-- Elementwise float addition; NaN/Inf absorb. -/
def pyAdd : PyFloat → PyFloat → PyFloat
  | some a, some b => some (a + b)
  | _, _ => none

/-- Elementwise float subtraction; NaN/Inf absorb. -/
def pySub : PyFloat → PyFloat → PyFloat
  | some a, some b => some (a - b)
  | _, _ => none

/-- Elementwise float multiplication; NaN/Inf absorb. -/
def pyMul : PyFloat → PyFloat → PyFloat
  | some a, some b => some (a * b)
  | _, _ => none

/-- Elementwise float division: division by zero yields NaN or Inf, i.e.
`none`; NaN/Inf absorb. -/
def pyDiv : PyFloat → PyFloat → PyFloat
  | some a, some b => if b = 0 then none else some (a / b)
  | _, _ => none

/-- Python `**` on floats, for natural exponents (other exponents of the
fragment are not needed and are mapped to invalid). -/
def pyPow : PyFloat → PyFloat → PyFloat
  | some a, some b =>
      if b.den = 1 ∧ 0 ≤ b.num then some (a ^ b.num.toNat) else none
  | _, _ => none

/-- The fragment of the Python expression grammar over which the source's
`eval(formula)` (src/main.py lines 284 and 292) operates that is relevant
here: numeric literals, the names `band1`/`band2`, the four arithmetic
operators, and — beyond the restricted grammar the spec demands — Python's
power operator `**`.  (Python's `eval` accepts far more still: attribute
access, subscripts and calls, i.e. arbitrary code execution; `powE` is kept
as a minimal witness that evaluation is not confined to `+ - * /`.) -/
inductive PyExprF
  | num (q : ℚ)
  | b1
  | b2
  | addE (e1 e2 : PyExprF)
  | subE (e1 e2 : PyExprF)
  | mulE (e1 e2 : PyExprF)
  | divE (e1 e2 : PyExprF)
  | powE (e1 e2 : PyExprF)
deriving DecidableEq

/-- Whether a formula references the name `band2`. -/
def usesB2 : PyExprF → Bool
  | .num _ => false
  | .b1 => false
  | .b2 => true
  | .addE e1 e2 => usesB2 e1 || usesB2 e2
  | .subE e1 e2 => usesB2 e1 || usesB2 e2
  | .mulE e1 e2 => usesB2 e1 || usesB2 e2
  | .divE e1 e2 => usesB2 e1 || usesB2 e2
  | .powE e1 e2 => usesB2 e1 || usesB2 e2

/-- Pointwise evaluation of a formula by the source's `eval(formula)` with the
names `band1` and `band2` bound to the per-pixel band values (numpy evaluates
the expression elementwise over the arrays). -/
def evalPix (e : PyExprF) (v1 v2 : PyFloat) : PyFloat :=
  match e with
  | .num q => some q
  | .b1 => v1
  | .b2 => v2
  | .addE e1 e2 => pyAdd (evalPix e1 v1 v2) (evalPix e2 v1 v2)
  | .subE e1 e2 => pySub (evalPix e1 v1 v2) (evalPix e2 v1 v2)
  | .mulE e1 e2 => pyMul (evalPix e1 v1 v2) (evalPix e2 v1 v2)
  | .divE e1 e2 => pyDiv (evalPix e1 v1 v2) (evalPix e2 v1 v2)
  | .powE e1 e2 => pyPow (evalPix e1 v1 v2) (evalPix e2 v1 v2)

/-- Modelled from the spec: membership in the restricted expression grammar
the spec requires — only `+ - * / ( )`, the names `band1` and `band2`, and
numeric literals (parentheses are grouping and have no AST node).  The power
operator, and everything beyond it that Python's `eval` accepts, is outside
this grammar. -/
def restrictedOk : PyExprF → Bool
  | .num _ => true
  | .b1 => true
  | .b2 => true
  | .addE e1 e2 => restrictedOk e1 && restrictedOk e2
  | .subE e1 e2 => restrictedOk e1 && restrictedOk e2
  | .mulE e1 e2 => restrictedOk e1 && restrictedOk e2
  | .divE e1 e2 => restrictedOk e1 && restrictedOk e2
  | .powE _ _ => false

/-- The default NDVI-style formula `(band2 - band1) / (band2 + band1)`. -/
def ndvi : PyExprF := .divE (.subE .b2 .b1) (.addE .b2 .b1)

/-- Masking step `np.ma.masked_invalid`: in this model NaN/Inf are already represented by
`none`, so masking is the identity on the representation. -/
def maskedInvalid (r : Grid PyFloat) : Grid PyFloat := fun p => r p

/-! ## Colorizer (`apply_colormap`, src/main.py lines 361-366) -/

/-- All pixel indices of the grid. -/
def ixList : List Ix :=
  (List.finRange 2).flatMap fun i => (List.finRange 2).map fun j => (i, j)

/-- The unmasked (valid) values of a masked raster, in pixel order. -/
def validVals (r : Grid PyFloat) : List ℚ := ixList.filterMap fun p => r p

/-- Minimum `result.min()` on a masked array: minimum over the valid values, or the
masked constant (`none`) when every pixel is masked. -/
def mMin (r : Grid PyFloat) : PyFloat :=
  match validVals r with
  | [] => none
  | x :: xs => some (xs.foldl min x)

/-- Maximum `result.max()` on a masked array. -/
def mMax (r : Grid PyFloat) : PyFloat :=
  match validVals r with
  | [] => none
  | x :: xs => some (xs.foldl max x)

/-- Normalization `(result - result.min()) / (result.max() - result.min())` under masked
arithmetic: masked pixels stay masked, and when max = min the division by
zero masks every pixel (numpy's domained masked division). -/
def normalize (r : Grid PyFloat) : Grid PyFloat :=
  fun p => pyDiv (pySub (r p) (mMin r)) (pySub (mMax r) (mMin r))

/-- Clip to [0,1], as matplotlib colormaps do with out-of-range input. -/
def clip01 (t : ℚ) : ℚ := max 0 (min 1 t)

/-- The fixed diverging red→yellow→green ramp of `plt.get_cmap("RdYlGn")`,
modelled as the piecewise-linear ramp through red, yellow, green with full
alpha.  The claims under study depend only on this being a fixed total map;
the exact color-table entries of matplotlib's lookup table are not modelled. -/
def rampRdYlGn (t : ℚ) : ℚ × ℚ × ℚ × ℚ :=
  if t ≤ 1/2 then (1, 2 * t, 0, 1) else (2 - 2 * t, 1, 0, 1)

/-- Applying the colormap to one (possibly masked) normalized value:
matplotlib maps masked entries to the colormap's "bad" color, transparent
black `(0,0,0,0)`, and valid entries through the ramp after clipping. -/
def cmapApply : PyFloat → ℚ × ℚ × ℚ × ℚ
  | none => (0, 0, 0, 0)
  | some t => rampRdYlGn (clip01 t)

/-- An 8-bit RGB pixel. -/
abbrev RGB8 := ℕ × ℕ × ℕ

/-- Quantization `(c * 255).astype(np.uint8)` for `c` in [0,1]: scale and truncate. -/
def quantize (c : ℚ) : ℕ := (c * 255).floor.toNat

/-- One output pixel of `apply_colormap`: colormap, drop alpha
(`[:, :, :3]`), quantize to 8 bits. -/
def colorPixel (v : PyFloat) : RGB8 :=
  match cmapApply v with
  | (r, g, b, _) => (quantize r, quantize g, quantize b)

/-- `apply_colormap` without the final `Image.fromarray`: normalize the
masked raster and map every pixel through the colormap. -/
def applyColormap (r : Grid PyFloat) : Grid RGB8 :=
  fun p => colorPixel (normalize r p)

/-! ## Data model of the pipeline (`cached_generate_tile`, `get_tile`) -/

/-- A decoded raster tile as returned by `fetch_tile`: a list of channels of
raw (finite) numeric samples; `shape[0]` is the channel count. -/
abbrev RasterTile := List (Grid ℚ)

/-- First channel `tile[0]` of of a fetched raster tile. -/
def firstChan (t : RasterTile) : Grid ℚ := t.headD fun _ => 0

/-- Conversion `.astype(float)`: raw samples are finite, so every pixel is valid. -/
def floatChan (g : Grid ℚ) : Grid PyFloat := fun p => some (g p)

/-- The rendered image: either a colormapped derived raster or the
multi-channel pass-through (`Image.fromarray(band1.transpose(1, 2, 0))`),
which keeps the fetched channels as they are. -/
inductive Image
  | colormapped (px : Grid RGB8)
  | passthrough (chans : RasterTile)

/-- PNG bytes.  The call `image.save(buffered, format="PNG")` is a deterministic,
injective pure function of the pixel data, so byte equality is image
equality and bytes are modelled by the image itself. -/
abbrev PngBytes := Image

/-- A scene record from the STAC catalog: the fields the pipeline reads —
the per-band asset hrefs (`feature["assets"][band]["href"]`), and the
`datetime` / `eo:cloud_cover` properties used for response headers. -/
structure Feature where
  assets : List (String × String)
  datetime : String
  cloudCover : ℕ
deriving DecidableEq

/-- Asset lookup `feature["assets"][band]["href"]`, as an association-list lookup;
`none` means the band name is not an asset key (Python raises `KeyError`). -/
def lookupAsset (f : Feature) (band : String) : Option String :=
  f.assets.lookup band

/-- The external collaborators of one pipeline run: the catalog's response
(status code and matched features) and the tile fetcher's outcome per asset
href (`Except` error = the exception raised inside `fetch_tile`). -/
structure Env where
  catalogStatus : ℕ
  features : List Feature
  fetch : String → Except String RasterTile

/-- How a pipeline stage fails: `httpExc` models a raised
`fastapi.HTTPException` (caught at the request boundary), `rawExc` models any
other Python exception (`KeyError`, `NameError`, `TypeError`, ...) which the
boundary's `except HTTPException` does not catch. -/
inductive PyErr
  | httpExc (status : ℕ) (detail : String)
  | rawExc (msg : String)
deriving DecidableEq

/-- Python truthiness of the optional `band2` query parameter, as tested by
`if band2 else None` and `if band2 is not None` after reassignment: absent
(`None`) and the empty string are both falsy. -/
def truthy : Option String → Bool
  | none => false
  | some s => s != ""

/-- The uncached body of `cached_generate_tile` (src/main.py lines 239-306):
catalog search (non-200 → `HTTPException(404)`), empty feature list →
`HTTPException(404)`, asset href lookups (a missing key raises a raw
`KeyError` — outside the `try`), concurrent band fetches (`try`/`except
Exception` → `HTTPException(500)`), then dispatch: two fetched bands →
formula over the first channel of each, colormapped; one single-channel band
→ formula over it (a formula naming `band2` hits the `None` binding and
raises a raw error); one multi-channel band → pass-through image. -/
def generateTile (env : Env) (start_date end_date : String) (cloud_cover : ℕ)
    (band1 : String) (band2 : Option String) (formula : PyExprF) :
    Except PyErr (PngBytes × Feature) :=
  if env.catalogStatus ≠ 200 then
    .error (.httpExc 404 "Error searching STAC API")
  else
    match env.features with
    | [] => .error (.httpExc 404 "No images found for the given parameters")
    | feature :: _ =>
      match lookupAsset feature band1 with
      | none => .error (.rawExc "KeyError")
      | some band1_url =>
        let band2_urlE : Except PyErr (Option String) :=
          if truthy band2 then
            match lookupAsset feature (band2.getD "") with
            | none => .error (.rawExc "KeyError")
            | some u => .ok (some u)
          else .ok none
        match band2_urlE with
        | .error e => .error e
        | .ok band2_url =>
          match env.fetch band1_url with
          | .error e => .error (.httpExc 500 e)
          | .ok tile1 =>
            match band2_url with
            | some u2 =>
              match env.fetch u2 with
              | .error e => .error (.httpExc 500 e)
              | .ok tile2 =>
                let b1 := floatChan (firstChan tile1)
                let b2 := floatChan (firstChan tile2)
                let result := maskedInvalid fun p => evalPix formula (b1 p) (b2 p)
                .ok (Image.colormapped (applyColormap result), feature)
            | none =>
              if tile1.length = 1 then
                if usesB2 formula then
                  .error (.rawExc "TypeError: band2 is None")
                else
                  let b1 := floatChan (firstChan tile1)
                  let result := maskedInvalid fun p => evalPix formula (b1 p) none
                  .ok (Image.colormapped (applyColormap result), feature)
              else
                .ok (Image.passthrough tile1, feature)

/-- The argument tuple of `cached_generate_tile` — the cache key (aiocache
keys the entry on the decorated function's arguments). -/
structure TileArgs where
  x : ℤ
  y : ℤ
  z : ℤ
  start_date : String
  end_date : String
  cloud_cover : ℕ
  band1 : String
  band2 : Option String
  formula : PyExprF
deriving DecidableEq

/-- `generateTile` applied to a packed argument tuple.  The tile coordinate
enters the pipeline only through the catalog query and the fetch (both part
of `Env` here), so the computation is a function of `Env` and the band/date
arguments. -/
def generateTileA (env : Env) (a : TileArgs) : Except PyErr (PngBytes × Feature) :=
  generateTile env a.start_date a.end_date a.cloud_cover a.band1 a.band2 a.formula

/-- The cache store of `@cached(ttl=3600)`: entries (key, value, insertion
time in seconds); later insertions shadow older ones. -/
abbrev Cache := List (TileArgs × (PngBytes × Feature) × ℕ)

/-- Look up a cache entry by key. -/
def cacheLookup (c : Cache) (a : TileArgs) : Option ((PngBytes × Feature) × ℕ) :=
  c.lookup a

/-- Memoization `cached_generate_tile`: TTL-bounded memoization of `generateTileA`.
Returns the result, the cache after the call, and whether the underlying
computation (catalog query + fetch + evaluation) was invoked.  A hit within
3600 s of insertion returns the stored value without computing; a miss or an
expired entry computes, and stores the result on success (a raised exception
is not cached). -/
def cachedGenerateTile (env : Env) (cache : Cache) (now : ℕ) (a : TileArgs) :
    Except PyErr (PngBytes × Feature) × Cache × Bool :=
  match cacheLookup cache a with
  | some (v, t) =>
    if now < t + 3600 then (.ok v, cache, false)
    else
      match generateTileA env a with
      | .ok v2 => (.ok v2, (a, v2, now) :: cache, true)
      | .error e => (.error e, cache, true)
  | none =>
    match generateTileA env a with
    | .ok v2 => (.ok v2, (a, v2, now) :: cache, true)
    | .error e => (.error e, cache, true)

/-- What the tile endpoint hands back to the client: a PNG response with the
`X-Image-Date` / `X-Cloud-Cover` headers, a structured JSON error envelope
`{"error": ...}` with a status code, or a raw uncaught exception escaping the
handler (the framework's opaque 500, not a JSON envelope built by the
endpoint). -/
inductive TileResponse
  | png (bytes : PngBytes) (imageDate : String) (cloudCover : ℕ)
  | jsonErr (status : ℕ) (error : String)
  | raw (msg : String)

/-- Endpoint `GET /tile/{z}/{x}/{y}` (src/main.py lines 309-358): reject zoom outside
[10,16] with a 400 envelope before any pipeline work; reject a `None`
`band1` with a 400 envelope; otherwise run the cached pipeline, turn a
caught `HTTPException` into a JSON envelope, and let any other exception
escape raw.  Returns (response, cache state after, computation invoked?). -/
def getTile (env : Env) (cache : Cache) (now : ℕ) (z x y : ℤ)
    (start_date end_date : String) (cloud_cover : ℕ)
    (band1 : Option String) (band2 : Option String) (formula : PyExprF) :
    TileResponse × Cache × Bool :=
  if z < 10 ∨ z > 16 then
    (.jsonErr 400 "Zoom level must be between 8 and 17", cache, false)
  else if band1 = none then
    (.jsonErr 400 "Band1 is required", cache, false)
  else
    let a : TileArgs :=
      ⟨x, y, z, start_date, end_date, cloud_cover, band1.getD "", band2, formula⟩
    let r := cachedGenerateTile env cache now a
    (match r.1 with
     | .ok (bytes, feature) => .png bytes feature.datetime feature.cloudCover
     | .error (.httpExc s d) => .jsonErr s d
     | .error (.rawExc m) => .raw m,
     r.2.1, r.2.2)

/-- Is the response a raw (unconverted) exception? -/
def respIsRaw : TileResponse → Bool
  | .raw _ => true
  | _ => false

/-- Is the response's image the multi-channel pass-through? -/
def respIsPassthrough : TileResponse → Bool
  | .png (Image.passthrough _) _ _ => true
  | _ => false

/-! ## `GET /search` (`search_images`, src/main.py lines 188-224) -/

/-- The search endpoint's outcome: the raw catalog results with HTTP 200, or
the 500 error envelope `{"error": "Error searching STAC API"}`. -/
inductive SearchResponse
  | results (features : List Feature)
  | errEnvelope (status : ℕ) (error : String)
deriving DecidableEq

/-- Endpoint `search_images`: forwards the query to the catalog; a non-200 catalog
status becomes a 500 JSON error envelope, otherwise the catalog's results —
an empty feature list included — are returned as-is. -/
def searchImages (env : Env) : SearchResponse :=
  if env.catalogStatus ≠ 200 then
    .errEnvelope 500 "Error searching STAC API"
  else
    .results env.features

/-- HTTP status of a search response. -/
def searchStatus : SearchResponse → ℕ
  | .results _ => 200
  | .errEnvelope s _ => s

/-! ## Progress channel (`notify_progress`, `websocket_endpoint`) -/

/-- A registered websocket connection: its identity and whether `send_text`
to it succeeds (`sendOk = false` models a disconnected peer whose send
raises). -/
structure Conn where
  id : ℕ
  sendOk : Bool
deriving DecidableEq

/-- Broadcast `notify_progress` (src/main.py lines 102-104): iterate over the
registered connections in order and send to each; the first failing send
raises out of the loop.  Returns the ids that received the message and the
id of the connection whose send raised, if any.  The function never mutates
the `connections` registry (removal happens only in `websocket_endpoint`'s
receive loop on `WebSocketDisconnect`). -/
def notifyProgress : List Conn → List ℕ × Option ℕ
  | [] => ([], none)
  | c :: rest =>
    if c.sendOk then
      let r := notifyProgress rest
      (c.id :: r.1, r.2)
    else
      ([], some c.id)

/-- One broadcast step over the registry: the registry afterwards (unchanged
— `notify_progress` does not remove connections) together with the delivery
outcome. -/
def broadcastStep (conns : List Conn) : List Conn × List ℕ × Option ℕ :=
  (conns, notifyProgress conns)

/-! ## Spec-modelled colorizer fallback -/

/-- Modelled from the spec: the normalization the spec's Colorizer contract
(§4.4) requires — "constant raster ⇒ define a fallback, e.g. all-mid-value,
since min==max causes division by zero — this edge case must be handled
explicitly".  Identical to `normalize` except for the explicit mid-value
fallback when min = max.  The source has no such fallback; this definition
exists only to be compared against `normalize`. -/
def specNormalize (r : Grid PyFloat) : Grid PyFloat := fun p =>
  match r p with
  | none => none
  | some v =>
    match mMin r, mMax r with
    | some mn, some mx =>
      if mn = mx then some (1/2) else some ((v - mn) / (mx - mn))
    | _, _ => none

/-! ## Concrete environments for witnesses and counterexamples -/

/-- A constant raster channel. -/
def gridC (c : ℚ) : Grid ℚ := fun _ => c

/-- A scene whose only asset is the 3-channel `visual` composite. -/
def featVisual : Feature := ⟨[("visual", "u-visual")], "2024-05-01", 12⟩

/-- Catalog up, one visual scene, fetch yields a 3-channel tile. -/
def envVisual : Env :=
  ⟨200, [featVisual], fun _ => .ok [gridC 1, gridC 2, gridC 3]⟩

/-- A scene exposing single-channel `red` and `nir` band assets. -/
def featBands : Feature := ⟨[("red", "u-red"), ("nir", "u-nir")], "2024-05-02", 7⟩

/-- Catalog up, one two-band scene; fetching `u-red` yields a single-channel
tile of 1s, any other href a single-channel tile of 3s. -/
def envBands : Env :=
  ⟨200, [featBands], fun u => if u = "u-red" then .ok [gridC 1] else .ok [gridC 3]⟩

/-- Catalog up but zero scenes match. -/
def envEmpty : Env := ⟨200, [], fun _ => .error "unreachable"⟩

/-- Catalog service down (non-success status). -/
def envDown : Env := ⟨503, [], fun _ => .error "unreachable"⟩

/-- A concrete tile-request argument tuple (cache key) for the cache
witnesses. -/
def aVis : TileArgs :=
  ⟨0, 0, 12, "2024-01-01", "2024-06-01", 30, "visual", none, .b1⟩

/-- The pipeline output for `aVis` against `envVisual`: the pass-through
visual image together with its scene metadata. -/
def vVis : PngBytes × Feature :=
  (Image.passthrough [gridC 1, gridC 2, gridC 3], featVisual)

/-! ## Helper lemmas -/

/-- Every pixel index is enumerated by `ixList`. -/
theorem mem_ixList (p : Ix) : p ∈ ixList := by
  cases p with
  | mk i j => fin_cases i <;> fin_cases j <;> decide

/-- Membership in the valid values of a masked raster. -/
theorem mem_validVals {r : Grid PyFloat} {q : ℚ} :
    q ∈ validVals r ↔ ∃ p, r p = some q := by
  unfold validVals
  rw [List.mem_filterMap]
  exact ⟨fun ⟨p, _, h⟩ => ⟨p, h⟩, fun ⟨p, h⟩ => ⟨p, mem_ixList p, h⟩⟩

/-- Folding an idempotent binary operation over a constant list. -/
theorem foldl_idem (f : ℚ → ℚ → ℚ) (v : ℚ) (hf : f v v = v) :
    ∀ (xs : List ℚ) (x : ℚ), x = v → (∀ a ∈ xs, a = v) → xs.foldl f x = v
  | [], x, hx, _ => hx
  | y :: ys, x, hx, hall => by
      have hy : y = v := hall y (List.mem_cons_self y ys)
      have : f x y = v := by rw [hx, hy, hf]
      exact foldl_idem f v hf ys (f x y) this fun a ha =>
        hall a (List.mem_cons_of_mem y ha)

/-- On a raster whose valid pixels all hold `v` (and at least one does),
`result.min()` is `v`. -/
theorem mMin_const {r : Grid PyFloat} {v : ℚ} {p0 : Ix}
    (hval : ∀ p, r p = none ∨ r p = some v) (h0 : r p0 = some v) :
    mMin r = some v := by
  have hmem : v ∈ validVals r := mem_validVals.2 ⟨p0, h0⟩
  have hall : ∀ q ∈ validVals r, q = v := by
    intro q hq
    obtain ⟨p, hp⟩ := mem_validVals.1 hq
    rcases hval p with h | h <;> rw [h] at hp
    · exact absurd hp (by simp)
    · exact (Option.some_injective ℚ hp).symm ▸ rfl
  unfold mMin
  rcases hvv : validVals r with _ | ⟨x, xs⟩
  · rw [hvv] at hmem; exact absurd hmem (List.not_mem_nil v)
  · rw [hvv] at hall
    have hx : x = v := hall x (List.mem_cons_self x xs)
    show some (xs.foldl min x) = some v
    rw [foldl_idem min v (min_self v) xs x hx
      fun a ha => hall a (List.mem_cons_of_mem x ha)]

/-- On a raster whose valid pixels all hold `v` (and at least one does),
`result.max()` is `v`. -/
theorem mMax_const {r : Grid PyFloat} {v : ℚ} {p0 : Ix}
    (hval : ∀ p, r p = none ∨ r p = some v) (h0 : r p0 = some v) :
    mMax r = some v := by
  have hmem : v ∈ validVals r := mem_validVals.2 ⟨p0, h0⟩
  have hall : ∀ q ∈ validVals r, q = v := by
    intro q hq
    obtain ⟨p, hp⟩ := mem_validVals.1 hq
    rcases hval p with h | h <;> rw [h] at hp
    · exact absurd hp (by simp)
    · exact (Option.some_injective ℚ hp).symm ▸ rfl
  unfold mMax
  rcases hvv : validVals r with _ | ⟨x, xs⟩
  · rw [hvv] at hmem; exact absurd hmem (List.not_mem_nil v)
  · rw [hvv] at hall
    have hx : x = v := hall x (List.mem_cons_self x xs)
    show some (xs.foldl max x) = some v
    rw [foldl_idem max v (max_self v) xs x hx
      fun a ha => hall a (List.mem_cons_of_mem x ha)]

/-! ## Claims -/

/-- C1: the claim says the caller-supplied formula is evaluated through a
restricted grammar (`+ - * / ( ) band1 band2` and numeric literals) parsed
into an explicit AST, never executing anything beyond that grammar.  The
source instead hands the formula string to Python's builtin `eval`
(src/main.py lines 284 and 292), whose grammar is all of Python's
expressions: already the power operator `band1 ** 2` — outside the
restricted grammar — evaluates successfully, and `eval` equally accepts
attribute access and calls, i.e. arbitrary code execution. -/
theorem evalEscapesRestrictedGrammar :
    restrictedOk (.powE .b1 (.num 2)) = false ∧
    evalPix (.powE .b1 (.num 2)) (some 3) (some 4) = some 9 := by
  decide

/-- C8: for every tile request with zoom outside [10,16], the endpoint
returns the 400 JSON error envelope, leaves the cache untouched, and never
invokes the pipeline (catalog client and tile fetcher included) — the
invoked flag is `false`. -/
theorem zoomOutOfRangeRejectedEarly (env : Env) (cache : Cache) (now : ℕ)
    (z x y : ℤ) (sd ed : String) (cc : ℕ)
    (b1 b2 : Option String) (f : PyExprF) (hz : z < 10 ∨ z > 16) :
    getTile env cache now z x y sd ed cc b1 b2 f =
      (.jsonErr 400 "Zoom level must be between 8 and 17", cache, false) := by
  unfold getTile
  rw [if_pos hz]

/-- C8 witness: a concrete request at zoom 9 is rejected with the 400
envelope and the pipeline is not invoked. -/
theorem zoomOutOfRangeRejectedEarlyWitness :
    getTile envVisual [] 0 9 5 5 "2024-01-01" "2024-06-01" 30
        (some "visual") none .b1 =
      (.jsonErr 400 "Zoom level must be between 8 and 17", [], false) :=
  zoomOutOfRangeRejectedEarly envVisual [] 0 9 5 5 "2024-01-01" "2024-06-01" 30
    (some "visual") none .b1 (Or.inl (by decide))

/-- C3 counterexample: the claim says a catalog non-success response is
surfaced as a 500-equivalent status, not a 404.  At a concrete request
against a catalog answering 503, the tile endpoint answers with status 404
(the source raises `HTTPException(status_code=404, detail="Error searching
STAC API")` on any non-200 catalog response, src/main.py lines 254-255). -/
theorem catalogFailureReturns404 :
    (getTile envDown [] 0 12 0 0 "2024-01-01" "2024-06-01" 30
        (some "visual") none .b1).1 =
      .jsonErr 404 "Error searching STAC API" := by
  rfl

/-- C3 amended: when the external catalog returns a non-success response
during a single-tile request (and the cache has no entry for the key), the
pipeline fails with the catalog-unavailable `HTTPException`, surfaced to the
client as a **404** status with an error envelope — not as a 500. -/
theorem catalogFailureSurfacedAs404 (env : Env) (cache : Cache) (now : ℕ)
    (z x y : ℤ) (sd ed : String) (cc : ℕ) (b1s : String)
    (b2 : Option String) (f : PyExprF)
    (hdown : env.catalogStatus ≠ 200) (hz : ¬(z < 10 ∨ z > 16))
    (hmiss : cacheLookup cache ⟨x, y, z, sd, ed, cc, b1s, b2, f⟩ = none) :
    (getTile env cache now z x y sd ed cc (some b1s) b2 f).1 =
      .jsonErr 404 "Error searching STAC API" := by
  simp [getTile, cachedGenerateTile, generateTileA, generateTile, hmiss, hz,
    hdown]

/-- C3 amended witness: concrete catalog-down request surfaces the 404
envelope. -/
theorem catalogFailureSurfacedAs404Witness :
    (getTile envDown [] 0 13 1 1 "2024-01-01" "2024-06-01" 30
        (some "visual") none .b1).1 =
      .jsonErr 404 "Error searching STAC API" :=
  catalogFailureSurfacedAs404 envDown [] 0 13 1 1 "2024-01-01" "2024-06-01" 30
    "visual" none .b1 (by decide) (by decide) rfl

/-- C2 counterexample: the claim says no raw internal exception reaches the
client for any combination of band names and formula text.  At a concrete
request naming a band that is not among the scene's assets, the asset lookup
`feature["assets"][band1]["href"]` (src/main.py line 264, outside any
`try`) raises a `KeyError`; `get_tile` catches only `HTTPException`, so the
raw exception escapes the handler. -/
theorem unknownBandRawException :
    respIsRaw (getTile envVisual [] 0 12 0 0 "2024-01-01" "2024-06-01" 30
        (some "nope") none .b1).1 = true := by
  rfl

/-- C2 amended: the tile-request boundary converts exactly the pipeline
errors raised as `HTTPException` (catalog non-success, no matching scene,
band-fetch failure) into structured JSON error envelopes with their status
codes; errors raised as any other exception (the unknown-band-name
`KeyError` of the asset lookup, formula-evaluation errors) are not caught
and reach the client raw. -/
theorem boundaryConvertsHttpErrorsOnly (env : Env) (cache : Cache) (now : ℕ)
    (z x y : ℤ) (sd ed : String) (cc : ℕ) (b1s : String)
    (b2 : Option String) (f : PyExprF) (hz : ¬(z < 10 ∨ z > 16)) :
    (∀ s d,
      (cachedGenerateTile env cache now ⟨x, y, z, sd, ed, cc, b1s, b2, f⟩).1 =
        .error (.httpExc s d) →
      (getTile env cache now z x y sd ed cc (some b1s) b2 f).1 = .jsonErr s d) ∧
    (∀ m,
      (cachedGenerateTile env cache now ⟨x, y, z, sd, ed, cc, b1s, b2, f⟩).1 =
        .error (.rawExc m) →
      (getTile env cache now z x y sd ed cc (some b1s) b2 f).1 = .raw m) := by
  constructor
  · intro s d h
    simp [getTile, hz, h]
  · intro m h
    simp [getTile, hz, h]

/-- C2 amended witness: at a concrete request whose catalog matches zero
scenes, the pipeline's `HTTPException(404)` is converted to the structured
JSON envelope. -/
theorem boundaryConvertsHttpErrorsOnlyWitness :
    (getTile envEmpty [] 0 14 2 2 "2024-01-01" "2024-06-01" 30
        (some "visual") none .b1).1 =
      .jsonErr 404 "No images found for the given parameters" :=
  (boundaryConvertsHttpErrorsOnly envEmpty [] 0 14 2 2 "2024-01-01"
      "2024-06-01" 30 "visual" none .b1 (by decide)).1
    404 "No images found for the given parameters" rfl

/-- C9: when the catalog matches zero scenes, the search endpoint returns
the empty result list with HTTP 200 (not an error envelope), while the
single-tile pipeline fails with the 404 "No images found" envelope; the two
outcomes carry different statuses, so the caller can distinguish "no data"
from "service failure". -/
theorem emptyCatalogSearchVsTile (env : Env) (cache : Cache) (now : ℕ)
    (z x y : ℤ) (sd ed : String) (cc : ℕ) (b1s : String)
    (b2 : Option String) (f : PyExprF)
    (hok : env.catalogStatus = 200) (hempty : env.features = [])
    (hz : ¬(z < 10 ∨ z > 16))
    (hmiss : cacheLookup cache ⟨x, y, z, sd, ed, cc, b1s, b2, f⟩ = none) :
    searchImages env = .results [] ∧
    searchStatus (searchImages env) = 200 ∧
    (getTile env cache now z x y sd ed cc (some b1s) b2 f).1 =
      .jsonErr 404 "No images found for the given parameters" := by
  have hsearch : searchImages env = .results [] := by
    simp [searchImages, hok, hempty]
  refine ⟨hsearch, by rw [hsearch]; rfl, ?_⟩
  simp [getTile, cachedGenerateTile, generateTileA, generateTile, hmiss, hz,
    hok, hempty]

/-- C9 witness: concrete zero-scene catalog — search answers 200 with the
empty list, the tile pipeline answers the 404 envelope. -/
theorem emptyCatalogSearchVsTileWitness :
    searchImages envEmpty = .results [] ∧
    searchStatus (searchImages envEmpty) = 200 ∧
    (getTile envEmpty [] 0 12 3 3 "2024-01-01" "2024-06-01" 30
        (some "visual") none .b1).1 =
      .jsonErr 404 "No images found for the given parameters" :=
  emptyCatalogSearchVsTile envEmpty [] 0 12 3 3 "2024-01-01" "2024-06-01" 30
    "visual" none .b1 rfl rfl (by decide) rfl

/-- C4: for an identical cache key, a first call that misses computes,
stores and returns the pipeline output, and a second call within the 3600 s
TTL window returns the byte-identical stored output with the computation —
catalog client and tile fetcher included — not invoked (invoked flag
`false`) and the cache unchanged. -/
theorem cacheHitReturnsStoredWithoutRecompute (env : Env) (cache : Cache)
    (a : TileArgs) (now1 now2 : ℕ) (v : PngBytes × Feature)
    (hmiss : cacheLookup cache a = none)
    (hok : generateTileA env a = .ok v)
    (httl : now2 < now1 + 3600) :
    cachedGenerateTile env cache now1 a = (.ok v, (a, v, now1) :: cache, true) ∧
    cachedGenerateTile env ((a, v, now1) :: cache) now2 a =
      (.ok v, (a, v, now1) :: cache, false) := by
  constructor
  · simp [cachedGenerateTile, hmiss, hok]
  · have hl : cacheLookup ((a, v, now1) :: cache) a = some (v, now1) := by
      simp [cacheLookup, List.lookup]
    simp [cachedGenerateTile, hl, httl]

/-- C4 witness: a concrete miss at time 0 computes and stores; the repeat at
time 1800 returns the identical bytes without invoking the pipeline. -/
theorem cacheHitReturnsStoredWithoutRecomputeWitness :
    cachedGenerateTile envVisual [] 0 aVis =
      (.ok vVis, [(aVis, vVis, 0)], true) ∧
    cachedGenerateTile envVisual [(aVis, vVis, 0)] 1800 aVis =
      (.ok vVis, [(aVis, vVis, 0)], false) :=
  cacheHitReturnsStoredWithoutRecompute envVisual [] aVis 0 1800 vVis rfl rfl
    (by decide)

/-- C5 counterexample: the claim says a send failure to one registered
connection does not prevent delivery to the remaining connections and that
the failing connection is removed.  With registry [conn 0 (ok), conn 1
(failing), conn 2 (ok)], the broadcast delivers only to conn 0 — conn 2
never receives the message — and the registry afterwards still contains the
failing conn 1 (`notify_progress` loops `for connection in connections:
await connection.send_text(...)` with no `try` and no removal,
src/main.py lines 102-104). -/
theorem broadcastAbortsOnFailure :
    notifyProgress [⟨0, true⟩, ⟨1, false⟩, ⟨2, true⟩] = ([0], some 1) ∧
    (broadcastStep [⟨0, true⟩, ⟨1, false⟩, ⟨2, true⟩]).1 =
      [⟨0, true⟩, ⟨1, false⟩, ⟨2, true⟩] := by
  decide

/-- C5 amended: a send failure during a broadcast aborts the loop: exactly
the connections registered before the failing one receive the message, the
failure propagates out of the broadcast as the raised exception, and the
registry is left unchanged — the failing connection is not removed (removal
happens only in the websocket receive loop on disconnect). -/
theorem broadcastStopsAtFirstFailure (pre : List Conn) (c : Conn)
    (post : List Conn) (hpre : ∀ a ∈ pre, a.sendOk = true)
    (hc : c.sendOk = false) :
    notifyProgress (pre ++ c :: post) = (pre.map Conn.id, some c.id) ∧
    (broadcastStep (pre ++ c :: post)).1 = pre ++ c :: post := by
  refine ⟨?_, rfl⟩
  induction pre with
  | nil => simp [notifyProgress, hc]
  | cons a as ih =>
    have ha : a.sendOk = true := hpre a (List.mem_cons_self a as)
    have ih2 := ih fun b hb => hpre b (List.mem_cons_of_mem a hb)
    simp [notifyProgress, ha, ih2]

/-- C5 amended witness: concrete registry [7 (ok), 8 (failing), 9 (ok)] —
only 7 receives, the registry keeps all three. -/
theorem broadcastStopsAtFirstFailureWitness :
    notifyProgress [⟨7, true⟩, ⟨8, false⟩, ⟨9, true⟩] = ([7], some 8) ∧
    (broadcastStep [⟨7, true⟩, ⟨8, false⟩, ⟨9, true⟩]).1 =
      [⟨7, true⟩, ⟨8, false⟩, ⟨9, true⟩] :=
  broadcastStopsAtFirstFailure [⟨7, true⟩] ⟨8, false⟩ [⟨9, true⟩]
    (by simp) rfl

/-- C6 counterexample: the claim says the min==max case is handled via an
explicit fallback rather than division by zero.  On the concrete constant
raster of 5s the source's normalization `(result - result.min()) /
(result.max() - result.min())` has denominator zero — the subtraction of
max and min computes `some 0` — and the masked division therefore masks
every pixel, instead of producing the spec's defined mid-value fallback:
the code's normalization and the spec-modelled fallback normalization
disagree at this input. -/
theorem constantRasterMaskedNotFallback :
    pySub (mMax fun _ => (some 5 : PyFloat)) (mMin fun _ => (some 5 : PyFloat)) =
      some 0 ∧
    normalize (fun _ => (some 5 : PyFloat)) ((0 : Fin 2), (0 : Fin 2)) = none ∧
    specNormalize (fun _ => (some 5 : PyFloat)) ((0 : Fin 2), (0 : Fin 2)) =
      some (1 / 2) ∧
    normalize (fun _ => (some 5 : PyFloat)) ((0 : Fin 2), (0 : Fin 2)) ≠
      specNormalize (fun _ => (some 5 : PyFloat)) ((0 : Fin 2), (0 : Fin 2)) := by
  have hval : ∀ q : Ix, (fun _ => (some 5 : PyFloat)) q = none ∨
      (fun _ => (some 5 : PyFloat)) q = some 5 := fun _ => Or.inr rfl
  have hmn : mMin (fun _ => (some 5 : PyFloat)) = some 5 :=
    @mMin_const _ _ ((0 : Fin 2), (0 : Fin 2)) hval rfl
  have hmx : mMax (fun _ => (some 5 : PyFloat)) = some 5 :=
    @mMax_const _ _ ((0 : Fin 2), (0 : Fin 2)) hval rfl
  have hsub : pySub (mMax fun _ => (some 5 : PyFloat))
      (mMin fun _ => (some 5 : PyFloat)) = some 0 := by
    rw [hmn, hmx]; simp [pySub]
  have hnorm : normalize (fun _ => (some 5 : PyFloat))
      ((0 : Fin 2), (0 : Fin 2)) = none := by
    unfold normalize
    rw [hmn, hmx]
    show pyDiv (some (5 - 5)) (some (5 - 5)) = none
    norm_num [pyDiv]
  have hspec : specNormalize (fun _ => (some 5 : PyFloat))
      ((0 : Fin 2), (0 : Fin 2)) = some (1 / 2) := by
    unfold specNormalize
    rw [hmn, hmx]
    simp
  exact ⟨hsub, hnorm, hspec, by rw [hnorm, hspec]; simp⟩

/-- C6 amended: for every raster whose valid pixels all hold one value `v`
(min==max, at least one valid pixel), the code has no explicit fallback:
the division by zero masks every normalized pixel, and the colormap maps
the masked pixels to its "bad" color, so the output is the constant image
(0,0,0) — well defined and free of NaN/Inf (pixels are 8-bit naturals),
but by masked-division semantics, not by a min==max fallback. -/
theorem constantRasterBadColorImage (r : Grid PyFloat) (v : ℚ) (p0 p : Ix)
    (hval : ∀ q, r q = none ∨ r q = some v) (h0 : r p0 = some v) :
    normalize r p = none ∧ applyColormap r p = (0, 0, 0) := by
  have hmn := mMin_const hval h0
  have hmx := mMax_const hval h0
  have hnorm : normalize r p = none := by
    unfold normalize
    rw [hmn, hmx]
    rcases hval p with h | h <;> rw [h]
    · rfl
    · show pyDiv (some (v - v)) (some (v - v)) = none
      simp [pyDiv, sub_self]
  refine ⟨hnorm, ?_⟩
  show colorPixel (normalize r p) = (0, 0, 0)
  rw [hnorm]
  simp [colorPixel, cmapApply, quantize]
  norm_num [Rat.floor]

/-- C6 amended witness: the concrete constant raster of 7s normalizes to
all-masked and colorizes to the constant (0,0,0) image. -/
theorem constantRasterBadColorImageWitness :
    normalize (fun _ => (some 7 : PyFloat)) ((1 : Fin 2), (1 : Fin 2)) = none ∧
    applyColormap (fun _ => (some 7 : PyFloat)) ((1 : Fin 2), (1 : Fin 2)) =
      (0, 0, 0) :=
  constantRasterBadColorImage (fun _ => some 7) 7 ((0 : Fin 2), (0 : Fin 2))
    ((1 : Fin 2), (1 : Fin 2)) (fun _ => Or.inr rfl) rfl

/-- C7: for the formula `(band2 - band1) / (band2 + band1)` on bands equal
at every pixel and such that each pixel's denominator evaluates to zero
(i.e. each pixel computes 0/0 — the claim's reading, which forces the band
value 0), every pixel of the derived raster is masked invalid, the valid
values of the masked raster are empty, and the colorization of the
all-masked raster completes, producing the well-defined constant bad-color
image (0,0,0) — no crash. -/
theorem ndviZeroOverZeroAllMasked (b1 b2 : Grid PyFloat)
    (heq : ∀ t, b1 t = b2 t)
    (hzz : ∀ t, pyAdd (b2 t) (b1 t) = some 0) (p : Ix) :
    maskedInvalid (fun t => evalPix ndvi (b1 t) (b2 t)) p = none ∧
    validVals (maskedInvalid fun t => evalPix ndvi (b1 t) (b2 t)) = [] ∧
    applyColormap (maskedInvalid fun t => evalPix ndvi (b1 t) (b2 t)) p =
      (0, 0, 0) := by
  have hall : ∀ t, evalPix ndvi (b1 t) (b2 t) = none := by
    intro t
    have h2 : b2 t = b1 t := (heq t).symm
    have hz' := hzz t
    rw [h2] at hz'
    rcases hb : b1 t with _ | q
    · rw [hb] at hz'
      simp [pyAdd] at hz'
    · rw [hb] at hz'
      have hq : q + q = 0 := by simpa [pyAdd] using hz'
      have hq0 : q = 0 := by linarith
      show pyDiv (pySub (b2 t) (some q)) (pyAdd (b2 t) (some q)) = none
      rw [h2, hb, hq0]
      simp [pySub, pyAdd, pyDiv]
  have hmask : ∀ t, maskedInvalid (fun t => evalPix ndvi (b1 t) (b2 t)) t = none :=
    fun t => hall t
  refine ⟨hmask p, ?_, ?_⟩
  · exact List.filterMap_eq_nil_iff.mpr fun a _ => hmask a
  · show colorPixel
      (normalize (maskedInvalid fun t => evalPix ndvi (b1 t) (b2 t)) p) = (0, 0, 0)
    have hn : normalize (maskedInvalid fun t => evalPix ndvi (b1 t) (b2 t)) p =
        none := by
      unfold normalize
      rw [hmask p]
      rfl
    rw [hn]
    simp [colorPixel, cmapApply, quantize]
    norm_num [Rat.floor]

/-- C7 witness: both bands identically zero — every pixel computes 0/0, the
derived raster is fully masked, and colorization yields the constant
(0,0,0) image. -/
theorem ndviZeroOverZeroAllMaskedWitness :
    maskedInvalid (fun t => evalPix ndvi ((fun _ => (some 0 : PyFloat)) t)
      ((fun _ => (some 0 : PyFloat)) t)) ((0 : Fin 2), (0 : Fin 2)) = none ∧
    validVals (maskedInvalid fun t => evalPix ndvi
      ((fun _ => (some 0 : PyFloat)) t) ((fun _ => (some 0 : PyFloat)) t)) = [] ∧
    applyColormap (maskedInvalid fun t => evalPix ndvi
        ((fun _ => (some 0 : PyFloat)) t) ((fun _ => (some 0 : PyFloat)) t))
      ((0 : Fin 2), (0 : Fin 2)) = (0, 0, 0) :=
  ndviZeroOverZeroAllMasked (fun _ => some 0) (fun _ => some 0)
    (fun _ => rfl) (fun _ => by simp [pyAdd]) ((0 : Fin 2), (0 : Fin 2))

/-- C10 counterexample: the claim says the two-band formula path is taken
for every request with a non-null `band2`.  The source decides the dispatch
by Python truthiness (`band2_url = ... if band2 else None`, src/main.py
line 265): with the non-null but empty `band2=""` and the default
multi-channel `visual` band, the request takes the multi-channel
pass-through path, not the two-band formula path. -/
theorem emptyBand2TakesPassthrough :
    ((some "" : Option String) ≠ none) ∧
    respIsPassthrough (getTile envVisual [] 0 12 0 0 "2024-01-01" "2024-06-01"
        30 (some "visual") (some "") .b1).1 = true :=
  ⟨by simp, by rfl⟩

/-- C10 amended: dispatch is decided solely by `band2`'s Python truthiness.
For every request whose `band2` is non-null **and non-empty**, the two-band
formula path is taken over only the first channel of each fetched raster
(`band1[0]`, `band2[0]`) — even when `band2` names the same band as `band1`
or `band1`'s raster is multi-channel; when `band2` is absent or the empty
string and `band1`'s raster is multi-channel, the pass-through applies. -/
theorem dispatchByBand2Truthiness (env : Env) (sd ed : String) (cc : ℕ)
    (b1s : String) (b2s : Option String) (f : PyExprF)
    (feat : Feature) (rest : List Feature) (u1 : String) (t1 : RasterTile)
    (hcat : env.catalogStatus = 200) (hfeat : env.features = feat :: rest)
    (h1 : lookupAsset feat b1s = some u1) (hf1 : env.fetch u1 = .ok t1) :
    (∀ u2 t2, truthy b2s = true → lookupAsset feat (b2s.getD "") = some u2 →
      env.fetch u2 = .ok t2 →
      generateTile env sd ed cc b1s b2s f =
        .ok (Image.colormapped (applyColormap (maskedInvalid fun p =>
          evalPix f (floatChan (firstChan t1) p) (floatChan (firstChan t2) p))),
          feat)) ∧
    (truthy b2s = false → 2 ≤ t1.length →
      generateTile env sd ed cc b1s b2s f = .ok (Image.passthrough t1, feat)) := by
  constructor
  · intro u2 t2 htr h2 hf2
    simp [generateTile, hcat, hfeat, h1, hf1, htr, h2, hf2]
  · intro htr hlen
    have hne : ¬t1.length = 1 := by omega
    simp [generateTile, hcat, hfeat, h1, hf1, htr, hne]

/-- C10 amended witness: a concrete truthy `band2="nir"` request takes the
two-band formula path over the first channels of the red and nir tiles. -/
theorem dispatchByBand2TruthinessWitness :
    generateTile envBands "2024-01-01" "2024-06-01" 30 "red" (some "nir")
        ndvi =
      .ok (Image.colormapped (applyColormap (maskedInvalid fun p =>
        evalPix ndvi (floatChan (firstChan [gridC 1]) p)
          (floatChan (firstChan [gridC 3]) p))), featBands) :=
  (dispatchByBand2Truthiness envBands "2024-01-01" "2024-06-01" 30 "red"
      (some "nir") ndvi featBands [] "u-red" [gridC 1] rfl rfl rfl rfl).1
    "u-nir" [gridC 3] rfl rfl rfl

end SCog
